import Mathlib

/- Verification development for the document-summary LLM pipeline.

   The subject is the resilient multi-provider generation pipeline:
   the provider fallback coordination and the three pipeline stages
   embedded from `src/agents/relevance_checker.py`,
   `src/agents/research_agent.py` and `src/agents/verification_agent.py`.
   Python strings are modelled as lists of characters, a provider
   client's per-request behaviour as a function from the prompt to
   either generated text or a raised exception message, and raising
   as an `Except` error value. -/

/-- Python strings, modelled as lists of characters. -/
abbrev Str := List Char

/-- The character list of a Lean string literal. -/
def lc (s : String) : Str := s.data

/-- The whitespace set of Python `str.strip()`. -/
def isPySpace (c : Char) : Bool :=
  c = ' ' || c = '\t' || c = '\n' || c = '\r' || c = '\x0b' || c = '\x0c'

/-- Python `s.strip(cs)`: remove characters satisfying `p` from both ends. -/
def stripP (p : Char → Bool) (s : Str) : Str :=
  ((s.dropWhile p).reverse.dropWhile p).reverse

/-- Python `s.strip()` with no argument: strip whitespace from both ends. -/
def pyStrip (s : Str) : Str := stripP isPySpace s

/-- Python `s.upper()` (the source only feeds it ASCII). -/
def pyUpper (s : Str) : Str := s.map Char.toUpper

/-- Python `s.capitalize()`: first character upper-cased, the rest lower-cased. -/
def pyCapitalize : Str → Str
  | [] => []
  | c :: cs => c.toUpper :: cs.map Char.toLower

/-- `isPre needle hay` holds when `needle` is a prefix of `hay`. -/
def isPre : Str → Str → Bool
  | [], _ => true
  | _ :: _, [] => false
  | a :: as, b :: bs => a = b && isPre as bs

/-- Python substring containment `needle in hay`. -/
def containsSub : Str → Str → Bool
  | [], needle => isPre needle []
  | c :: t, needle => isPre needle (c :: t) || containsSub t needle

/-- Python `s.split(c)` for a one-character separator: no collapsing of
    adjacent separators, and the result is never empty. -/
def splitOnChar (c : Char) : Str → List Str
  | [] => [[]]
  | x :: xs =>
    match splitOnChar c xs with
    | [] => [[]]
    | h :: t => if x = c then [] :: h :: t else (x :: h) :: t

/-- Python `s.split(c, 1)` when `c` occurs in `s`: the text before and
    after the first occurrence; `none` when `c` does not occur. -/
def splitFirst (c : Char) : Str → Option (Str × Str)
  | [] => none
  | x :: xs =>
    if x = c then some ([], xs)
    else (splitFirst c xs).map (fun p => (x :: p.1, p.2))

/-- Python `sep.join(items)`. -/
def joinSep (sep : Str) : List Str → Str
  | [] => []
  | [x] => x
  | x :: y :: t => x ++ sep ++ joinSep sep (y :: t)

/-- Python `s[0] == c` via `startswith`: false on the empty string. -/
def startsWithC (c : Char) : Str → Bool
  | [] => false
  | x :: _ => x = c

/-- Python `s.endswith(c)` for a one-character suffix. -/
def endsWithC (c : Char) (s : Str) : Bool := startsWithC c s.reverse

/-- A provider client's behaviour on one request: `generate(prompt)`
    either returns text (`ok`) or raises an exception whose string form
    is the payload (`error`).  See `src/providers`. -/
abbrev Client := Str → Except Str Str

/-- An agent's provider slot: `none` when the client failed to
    initialize (missing credential), as in each agent's `__init__`. -/
abbrev Slot := Option Client

namespace RelevanceChecker

/-- The exhaustion message of `relevance_checker.py` line 62. -/
def exhaustMsg : Str := lc "All models failed to generate a response."

/-- The secondary (OpenAI) leg of `RelevanceChecker._get_llm_response`
    (relevance_checker.py lines 52-62): any failure falls through to the
    final `RuntimeError`. -/
def trySecondary (secondary : Slot) (prompt : Str) : Except Str Str :=
  match secondary with
  | some c =>
    match c prompt with
    | .ok r => .ok r
    | .error _ => .error exhaustMsg
  | none => .error exhaustMsg

/-- `RelevanceChecker._get_llm_response` (relevance_checker.py lines
    30-62): try primary (Gemini) then secondary (OpenAI), first success
    wins; when both are absent or fail, raise `exhaustMsg`. -/
def getLLMResponse (primary secondary : Slot) (prompt : Str) : Except Str Str :=
  match primary with
  | some c =>
    match c prompt with
    | .ok r => .ok r
    | .error _ => trySecondary secondary prompt
  | none => trySecondary secondary prompt

/-- The providers `_get_llm_response` invokes, in invocation order
    (0 = primary/Gemini, 1 = secondary/OpenAI). -/
def callTrace (primary secondary : Slot) (prompt : Str) : List Nat :=
  match primary with
  | some c =>
    match c prompt with
    | .ok _ => [0]
    | .error _ => match secondary with | some _ => [0, 1] | none => [0]
  | none => match secondary with | some _ => [1] | none => []

/-- The classification prompt of `RelevanceChecker.check`
    (relevance_checker.py lines 82-99). -/
def classifyPrompt (question documentContent : Str) : Str :=
  lc "\n        You are an AI relevance checker. \n        Classify how well the document content addresses the user's question.\n\n        **Instructions:**\n        - Respond with ONLY one label: CAN_ANSWER, PARTIAL, or NO_MATCH.\n        - Do not provide any explanation.\n\n        **Labels:**\n        1) \"CAN_ANSWER\": The passages contain enough information to fully answer.\n        2) \"PARTIAL\": The passages discuss the topic but lack some details.\n        3) \"NO_MATCH\": The passages do not mention the topic at all.\n\n        **Question:** " ++
  question ++
  lc "\n        **Passages:** " ++
  documentContent ++
  lc "\n\n        **Respond ONLY with one of the following labels: CAN_ANSWER, PARTIAL, NO_MATCH**\n        "

/-- The resilient fuzzy matching of `RelevanceChecker.check`
    (relevance_checker.py lines 108-125): strip and upper-case the raw
    text, then test substring containment in priority order. -/
def classify (rawResponse : Str) : Str :=
  let llmResponse := pyUpper (pyStrip rawResponse)
  if containsSub llmResponse (lc "CAN_ANSWER") then lc "CAN_ANSWER"
  else if containsSub llmResponse (lc "PART") then lc "PARTIAL"
  else if containsSub llmResponse (lc "NO_MATCH") then lc "NO_MATCH"
  else lc "NO_MATCH"

/-- `RelevanceChecker.check` (relevance_checker.py lines 64-128).
    `topDocs` is the page content of the documents the retriever
    returned for the question; a `RuntimeError` from the provider chain
    is caught and classified as `NO_MATCH`. -/
def check (question : Str) (topDocs : List Str) (k : Nat)
    (primary secondary : Slot) : Str :=
  if topDocs = [] then lc "NO_MATCH"
  else
    let documentContent := joinSep (lc "\n\n") (topDocs.take k)
    let prompt := classifyPrompt question documentContent
    match getLLMResponse primary secondary prompt with
    | .error _ => lc "NO_MATCH"
    | .ok t => classify t

/-- The providers one `RelevanceChecker.check` call invokes. -/
def checkTrace (question : Str) (topDocs : List Str) (k : Nat)
    (primary secondary : Slot) : List Nat :=
  if topDocs = [] then []
  else
    callTrace primary secondary
      (classifyPrompt question (joinSep (lc "\n\n") (topDocs.take k)))

end RelevanceChecker

namespace ResearchAgent

/-- The exhaustion message of `research_agent.py` line 88. -/
def exhaustMsg : Str := lc "No AI models are currently responding. Check your API keys."

/-- The distinguished rate-limit message of `research_agent.py` line 85. -/
def rateLimitMsg : Str := lc "Rate limit reached. Please wait 60 seconds."

/-- The sentinel draft of `research_agent.py` line 114. -/
def cannotAnswerMsg : Str := lc "I cannot answer this question."

/-- The re-raised model error of `research_agent.py` line 111. -/
def modelErrorMsg : Str := lc "Failed to generate answer due to a model error."

/-- The secondary (OpenAI) leg of `ResearchAgent._get_llm_response`
    (research_agent.py lines 77-88): a failure whose string form
    contains `429` raises the rate-limit message; any other failure
    falls through to the generic `RuntimeError`. -/
def trySecondary (secondary : Slot) (prompt : Str) : Except Str Str :=
  match secondary with
  | some c =>
    match c prompt with
    | .ok r => .ok r
    | .error e =>
      if containsSub e (lc "429") then .error rateLimitMsg else .error exhaustMsg
  | none => .error exhaustMsg

/-- `ResearchAgent._get_llm_response` (research_agent.py lines 60-88):
    try primary (Gemini) then secondary (OpenAI), first success wins. -/
def getLLMResponse (primary secondary : Slot) (prompt : Str) : Except Str Str :=
  match primary with
  | some c =>
    match c prompt with
    | .ok r => .ok r
    | .error _ => trySecondary secondary prompt
  | none => trySecondary secondary prompt

/-- The providers `_get_llm_response` invokes, in invocation order
    (0 = primary/Gemini, 1 = secondary/OpenAI). -/
def callTrace (primary secondary : Slot) (prompt : Str) : List Nat :=
  match primary with
  | some c =>
    match c prompt with
    | .ok _ => [0]
    | .error _ => match secondary with | some _ => [0, 1] | none => [0]
  | none => match secondary with | some _ => [1] | none => []

/-- `ResearchAgent.sanitize_response` (research_agent.py lines 33-37). -/
def sanitizeResponse (responseText : Str) : Str := pyStrip responseText

/-- `ResearchAgent.generate_prompt` (research_agent.py lines 39-57). -/
def generatePrompt (question context : Str) : Str :=
  lc "\n        You are an AI assistant designed to provide precise and factual answers based on the given context.\n\n        **Instructions:**\n        - Answer the following question using only the provided context.\n        - Be clear, concise, and factual.\n        - Return as much information as you can get from the context.\n        \n        **Question:** " ++
  question ++
  lc "\n        **Context:**\n        " ++
  context ++
  lc "\n\n        **Provide your answer below:**\n        "

/-- `ResearchAgent.generate` (research_agent.py lines 91-119): the
    result pair is `(draft_answer, context_used)`; a provider-chain
    failure is re-raised as `modelErrorMsg`; a truthy (nonempty) raw
    answer is whitespace-stripped, a falsy one becomes the sentinel. -/
def generate (question : Str) (documents : List Str)
    (primary secondary : Slot) : Except Str (Str × Str) :=
  let context := joinSep (lc "\n\n") documents
  let prompt := generatePrompt question context
  match getLLMResponse primary secondary prompt with
  | .error _ => .error modelErrorMsg
  | .ok rawAnswer =>
    let draftAnswer :=
      if rawAnswer ≠ [] then sanitizeResponse rawAnswer else cannotAnswerMsg
    .ok (draftAnswer, context)

end ResearchAgent

namespace VerificationAgent

/-- A parsed field value of the verification dictionary: a plain string
    or a list of strings. -/
inductive FieldVal where
  | s : Str → FieldVal
  | l : List Str → FieldVal
deriving DecidableEq

/-- The verification dictionary: an insertion-ordered association list
    with Python-dict update semantics. -/
abbrev Dict := List (Str × FieldVal)

/-- Python `d[k] = v`: update in place, or append a new key. -/
def insertD : Dict → Str → FieldVal → Dict
  | [], k, v => [(k, v)]
  | (k', v') :: t, k, v =>
    if k' = k then (k, v) :: t else (k', v') :: insertD t k v

/-- Python `d.get(k)` / `k in d`. -/
def lookupD : Dict → Str → Option FieldVal
  | [], _ => none
  | (k', v') :: t, k => if k' = k then some v' else lookupD t k

/-- The exhaustion message of `verification_agent.py` line 169. -/
def exhaustMsg : Str := lc "No AI models are currently responding. Check your API keys."

/-- The distinguished rate-limit message of `verification_agent.py` line 166. -/
def rateLimitMsg : Str := lc "Rate limit reached. Please wait 60 seconds."

/-- The re-raised model error of `verification_agent.py` line 193. -/
def checkFailMsg : Str := lc "Failed to verify answer due to a model error."

/-- The secondary (OpenAI) leg of `VerificationAgent._get_llm_response`
    (verification_agent.py lines 158-169): a failure whose string form
    contains `429` raises the rate-limit message; any other failure
    falls through to the generic `RuntimeError`. -/
def trySecondary (secondary : Slot) (prompt : Str) : Except Str Str :=
  match secondary with
  | some c =>
    match c prompt with
    | .ok r => .ok r
    | .error e =>
      if containsSub e (lc "429") then .error rateLimitMsg else .error exhaustMsg
  | none => .error exhaustMsg

/-- `VerificationAgent._get_llm_response` (verification_agent.py lines
    141-169): try primary (Gemini) then secondary (OpenAI), first
    success wins. -/
def getLLMResponse (primary secondary : Slot) (prompt : Str) : Except Str Str :=
  match primary with
  | some c =>
    match c prompt with
    | .ok r => .ok r
    | .error _ => trySecondary secondary prompt
  | none => trySecondary secondary prompt

/-- `VerificationAgent.sanitize_response` (verification_agent.py lines 31-35). -/
def sanitizeResponse (responseText : Str) : Str := pyStrip responseText

/-- `VerificationAgent.generate_prompt` (verification_agent.py lines 37-67). -/
def generatePrompt (answer context : Str) : Str :=
  lc "\n        You are an AI assistant designed to verify the accuracy and relevance of answers based on provided context.\n\n        **Instructions:**\n        - Verify the following answer against the provided context.\n        - Check for:\n        1. Direct/indirect factual support (YES/NO)\n        2. Unsupported claims (list any if present)\n        3. Contradictions (list any if present)\n        4. Relevance to the question (YES/NO)\n        - Provide additional details or explanations where relevant.\n        - Respond in the exact format specified below without adding any unrelated information.\n\n        **Format:**\n        Supported: YES/NO\n        Unsupported Claims: [item1, item2, ...]\n        Contradictions: [item1, item2, ...]\n        Relevant: YES/NO\n        Additional Details: [Any extra information or explanations]\n\n        **Answer:** " ++
  answer ++
  lc "\n        **Context:**\n        " ++
  context ++
  lc "\n\n        **Respond ONLY with the above format.**\n        "

/-- Lines 84-90 of `parse_verification_response`: a `[`-`]`-bracketed
    value is split on commas, each item stripped of whitespace, then of
    surrounding double quotes, then single quotes; items that are
    whitespace-only are dropped; a non-bracketed value yields `[]`. -/
def parseListValue (value : Str) : List Str :=
  if startsWithC '[' value && endsWithC ']' value then
    (splitOnChar ',' ((value.drop 1).dropLast)).filterMap (fun item =>
      if pyStrip item ≠ [] then
        some (stripP (fun c => c = '\'') (stripP (fun c => c = '"') (pyStrip item)))
      else none)
  else []

/-- One iteration of the parse loop of `parse_verification_response`
    (verification_agent.py lines 76-94): a line without a colon is
    skipped; the key is stripped and `capitalize`d, the value stripped;
    only the five expected keys are accepted, list keys through
    `parseListValue`, the details key verbatim, the remaining (YES/NO)
    keys upper-cased. -/
def parseLine (verification : Dict) (line : Str) : Dict :=
  match splitFirst ':' line with
  | none => verification
  | some (k0, v0) =>
    let key := pyCapitalize (pyStrip k0)
    let value := pyStrip v0
    if key = lc "Supported" ∨ key = lc "Unsupported claims" ∨
        key = lc "Contradictions" ∨ key = lc "Relevant" ∨
        key = lc "Additional details" then
      if key = lc "Unsupported claims" ∨ key = lc "Contradictions" then
        insertD verification key (.l (parseListValue value))
      else if key = lc "Additional details" then
        insertD verification key (.s value)
      else
        insertD verification key (.s (pyUpper value))
    else verification

/-- The default backfill of lines 96-103: add the key with its default
    when it is not already present. -/
def ensureKey (d : Dict) (k : Str) (v : FieldVal) : Dict :=
  match lookupD d k with
  | some _ => d
  | none => insertD d k v

/-- Lines 96-103 of `parse_verification_response`: backfill each of the
    five title-case keys, in order, when absent. -/
def ensureDefaults (d : Dict) : Dict :=
  ensureKey (ensureKey (ensureKey (ensureKey (ensureKey d
    (lc "Supported") (.s (lc "NO")))
    (lc "Unsupported Claims") (.l []))
    (lc "Contradictions") (.l []))
    (lc "Relevant") (.s (lc "NO")))
    (lc "Additional Details") (.s (lc ""))

/-- `VerificationAgent.parse_verification_response` (verification_agent.py
    lines 69-108).  The `try` body performs only splits, strips and
    dictionary writes that cannot raise, so the `except` branch that
    returns `None` is unreachable and the parse is total. -/
def parseVerificationResponse (responseText : Str) : Dict :=
  ensureDefaults ((splitOnChar '\n' responseText).foldl parseLine [])

/-- How the formatter's f-string reads a field value as text.  Every
    reachable dictionary stores `.s` under the keys the formatter reads
    as strings, so the `.l` case only fixes a rendering for unreachable
    combinations. -/
def asStr : FieldVal → Str
  | .s t => t
  | .l ts => joinSep (lc ", ") ts

/-- How the formatter reads a field value as a list; reachable
    dictionaries store `.l` under both list keys. -/
def asList : FieldVal → List Str
  | .l ts => ts
  | .s _ => []

/-- Python `verification.get(k, default)`. -/
def getField (d : Dict) (k : Str) (dflt : FieldVal) : FieldVal :=
  (lookupD d k).getD dflt

/-- `VerificationAgent.format_verification_report` (verification_agent.py
    lines 110-138). -/
def formatVerificationReport (verification : Dict) : Str :=
  let supported := asStr (getField verification (lc "Supported") (.s (lc "NO")))
  let unsupportedClaims := asList (getField verification (lc "Unsupported Claims") (.l []))
  let contradictions := asList (getField verification (lc "Contradictions") (.l []))
  let relevant := asStr (getField verification (lc "Relevant") (.s (lc "NO")))
  let additionalDetails := asStr (getField verification (lc "Additional Details") (.s (lc "")))
  (lc "**Supported:** " ++ supported ++ lc "\n") ++
  (if unsupportedClaims ≠ [] then
    lc "**Unsupported Claims:** " ++ joinSep (lc ", ") unsupportedClaims ++ lc "\n"
   else lc "**Unsupported Claims:** None\n") ++
  (if contradictions ≠ [] then
    lc "**Contradictions:** " ++ joinSep (lc ", ") contradictions ++ lc "\n"
   else lc "**Contradictions:** None\n") ++
  (lc "**Relevant:** " ++ relevant ++ lc "\n") ++
  (if additionalDetails ≠ [] then
    lc "**Additional Details:** " ++ additionalDetails ++ lc "\n"
   else lc "**Additional Details:** None\n")

/-- The all-default report substituted when the model returns an empty
    response (`VerificationAgent.check`, lines 199-207). -/
def emptyResponseReport : Dict :=
  [(lc "Supported", .s (lc "NO")),
   (lc "Unsupported Claims", .l []),
   (lc "Contradictions", .l []),
   (lc "Relevant", .s (lc "NO")),
   (lc "Additional Details", .s (lc "Empty response from the model."))]

/-- The verification dictionary `check` builds from the raw response of
    a successful provider call (verification_agent.py lines 195-219): a
    truthy response is stripped, an empty sanitized response yields the
    all-default report, otherwise the response is parsed.  The
    `verification_report is None` branch (lines 211-219) is dead
    because the parse is total. -/
def checkReport (llmResponse : Str) : Dict :=
  let sanitized := if llmResponse ≠ [] then sanitizeResponse llmResponse else []
  if sanitized = [] then emptyResponseReport
  else parseVerificationResponse sanitized

/-- `VerificationAgent.check` (verification_agent.py lines 172-228): the
    result pair is `(verification_report, context_used)` with the report
    already formatted; a provider-chain failure is re-raised as
    `checkFailMsg`. -/
def check (answer : Str) (documents : List Str)
    (primary secondary : Slot) : Except Str (Str × Str) :=
  let context := joinSep (lc "\n\n") documents
  let prompt := generatePrompt answer context
  match getLLMResponse primary secondary prompt with
  | .error _ => .error checkFailMsg
  | .ok llmResponse => .ok (formatVerificationReport (checkReport llmResponse), context)

/-- All five fields of the report are present. -/
def hasAllFields (d : Dict) : Prop :=
  (lookupD d (lc "Supported")).isSome ∧
  (lookupD d (lc "Unsupported Claims")).isSome ∧
  (lookupD d (lc "Contradictions")).isSome ∧
  (lookupD d (lc "Relevant")).isSome ∧
  (lookupD d (lc "Additional Details")).isSome

end VerificationAgent

/-- Every provider slot is absent (failed to initialize) or fails on
    the given prompt. -/
def allProvidersFail (primary secondary : Slot) (prompt : Str) : Prop :=
  (primary = none ∨ ∃ c e, primary = some c ∧ c prompt = Except.error e) ∧
  (secondary = none ∨ ∃ c e, secondary = some c ∧ c prompt = Except.error e)

/- Helper lemmas. -/

theorem dropWhile_dropWhile (p : Char → Bool) (l : Str) :
    (l.dropWhile p).dropWhile p = l.dropWhile p := by
  induction l with
  | nil => rfl
  | cons a t ih =>
    by_cases h : p a
    · simp only [List.dropWhile_cons, h, if_true, ih]
    · simp [List.dropWhile_cons, h]

theorem dropWhile_eq_self_of_prefix (p : Char → Bool) {u v w : Str}
    (huv : u = v ++ w) (hu : u.dropWhile p = u) : v.dropWhile p = v := by
  cases v with
  | nil => rfl
  | cons a t =>
    subst huv
    rw [List.cons_append, List.dropWhile_cons] at hu
    rw [List.dropWhile_cons]
    by_cases h : p a
    · exfalso
      rw [if_pos h] at hu
      have hlen := congrArg List.length hu
      have hle := (List.dropWhile_sublist (p := p) (l := t ++ w)).length_le
      simp only [List.length_cons] at hlen
      omega
    · rw [if_neg h]

theorem stripP_idem (p : Char → Bool) (s : Str) :
    stripP p (stripP p s) = stripP p s := by
  have hufront : (s.dropWhile p).dropWhile p = s.dropWhile p := dropWhile_dropWhile p s
  have hback : ((s.dropWhile p).reverse.dropWhile p).dropWhile p
      = (s.dropWhile p).reverse.dropWhile p := dropWhile_dropWhile p (s.dropWhile p).reverse
  have hsplit : s.dropWhile p
      = ((s.dropWhile p).reverse.dropWhile p).reverse
        ++ ((s.dropWhile p).reverse.takeWhile p).reverse := by
    conv_lhs => rw [← List.reverse_reverse (s.dropWhile p),
      ← List.takeWhile_append_dropWhile p (s.dropWhile p).reverse]
    rw [List.reverse_append]
  have hvfront : (stripP p s).dropWhile p = stripP p s :=
    dropWhile_eq_self_of_prefix p hsplit hufront
  show (((stripP p s).dropWhile p).reverse.dropWhile p).reverse = stripP p s
  rw [hvfront]
  show ((((s.dropWhile p).reverse.dropWhile p).reverse).reverse.dropWhile p).reverse
      = stripP p s
  rw [List.reverse_reverse, hback]
  rfl

theorem pyStrip_idem (s : Str) : pyStrip (pyStrip s) = pyStrip s :=
  stripP_idem isPySpace s

namespace VerificationAgent

theorem lookupD_insertD_self (d : Dict) (k : Str) (v : FieldVal) :
    lookupD (insertD d k v) k = some v := by
  induction d with
  | nil => simp [insertD, lookupD]
  | cons hd t ih =>
    obtain ⟨k', v'⟩ := hd
    by_cases h : k' = k
    · simp [insertD, lookupD, h]
    · simp [insertD, lookupD, h, ih]

theorem lookupD_insertD_ne (d : Dict) {k k' : Str} (h : k' ≠ k) (v : FieldVal) :
    lookupD (insertD d k v) k' = lookupD d k' := by
  induction d with
  | nil => simp [insertD, lookupD, Ne.symm h]
  | cons hd t ih =>
    obtain ⟨k0, v0⟩ := hd
    by_cases h0 : k0 = k
    · subst h0
      simp [insertD, lookupD, h, Ne.symm h]
    · simp [insertD, lookupD, h0, ih]

theorem isSome_lookupD_ensureKey_self (d : Dict) (k : Str) (v : FieldVal) :
    (lookupD (ensureKey d k v) k).isSome := by
  unfold ensureKey
  cases hl : lookupD d k with
  | some w => simp [hl]
  | none => simp [lookupD_insertD_self]

theorem isSome_lookupD_ensureKey_mono (d : Dict) (k k' : Str) (v : FieldVal)
    (h : (lookupD d k').isSome) : (lookupD (ensureKey d k v) k').isSome := by
  unfold ensureKey
  cases hl : lookupD d k with
  | some w => simpa using h
  | none =>
    by_cases hk : k' = k
    · subst hk; simp [lookupD_insertD_self]
    · rw [lookupD_insertD_ne d hk v]; exact h

theorem hasAllFields_ensureDefaults (d : Dict) : hasAllFields (ensureDefaults d) := by
  unfold ensureDefaults hasAllFields
  refine ⟨?_, ?_, ?_, ?_, ?_⟩
  · exact isSome_lookupD_ensureKey_mono _ _ _ _
      (isSome_lookupD_ensureKey_mono _ _ _ _
        (isSome_lookupD_ensureKey_mono _ _ _ _
          (isSome_lookupD_ensureKey_mono _ _ _ _
            (isSome_lookupD_ensureKey_self _ _ _))))
  · exact isSome_lookupD_ensureKey_mono _ _ _ _
      (isSome_lookupD_ensureKey_mono _ _ _ _
        (isSome_lookupD_ensureKey_mono _ _ _ _
          (isSome_lookupD_ensureKey_self _ _ _)))
  · exact isSome_lookupD_ensureKey_mono _ _ _ _
      (isSome_lookupD_ensureKey_mono _ _ _ _
        (isSome_lookupD_ensureKey_self _ _ _))
  · exact isSome_lookupD_ensureKey_mono _ _ _ _
      (isSome_lookupD_ensureKey_self _ _ _)
  · exact isSome_lookupD_ensureKey_self _ _ _

theorem hasAllFields_checkReport (r : Str) : hasAllFields (checkReport r) := by
  unfold checkReport
  dsimp only
  split
  · split
    · exact ⟨rfl, rfl, rfl, rfl, rfl⟩
    · exact hasAllFields_ensureDefaults _
  · exact ⟨rfl, rfl, rfl, rfl, rfl⟩

end VerificationAgent

namespace RelevanceChecker

theorem classify_cases (raw : Str) :
    classify raw = lc "CAN_ANSWER" ∨ classify raw = lc "PARTIAL" ∨
      classify raw = lc "NO_MATCH" := by
  unfold classify
  dsimp only
  split
  · exact Or.inl rfl
  · split
    · exact Or.inr (Or.inl rfl)
    · split
      · exact Or.inr (Or.inr rfl)
      · exact Or.inr (Or.inr rfl)

end RelevanceChecker

namespace RelevanceChecker

theorem trySecondary_error_msg (secondary : Slot) (prompt m : Str)
    (h : trySecondary secondary prompt = Except.error m) : m = exhaustMsg := by
  unfold trySecondary at h
  cases secondary with
  | none => simp at h; exact h.symm
  | some c =>
    dsimp only at h
    cases hc : c prompt with
    | ok r => rw [hc] at h; simp at h
    | error e => rw [hc] at h; simp at h; exact h.symm

theorem rcAllFailError (primary secondary : Slot) (prompt : Str)
    (h : allProvidersFail primary secondary prompt) :
    getLLMResponse primary secondary prompt = Except.error exhaustMsg := by
  obtain ⟨hp, hs⟩ := h
  have hsec : trySecondary secondary prompt = Except.error exhaustMsg := by
    rcases hs with h0 | ⟨c, e, hc, he⟩
    · subst h0; rfl
    · subst hc
      unfold trySecondary
      dsimp only
      rw [he]
  rcases hp with h0 | ⟨c, e, hc, he⟩
  · subst h0; exact hsec
  · subst hc
    unfold getLLMResponse
    dsimp only
    rw [he]
    exact hsec

end RelevanceChecker

namespace ResearchAgent

theorem raAllFailError (primary secondary : Slot) (prompt : Str)
    (h : allProvidersFail primary secondary prompt) :
    getLLMResponse primary secondary prompt = Except.error exhaustMsg ∨
    getLLMResponse primary secondary prompt = Except.error rateLimitMsg := by
  obtain ⟨hp, hs⟩ := h
  have hsec : trySecondary secondary prompt = Except.error exhaustMsg ∨
      trySecondary secondary prompt = Except.error rateLimitMsg := by
    rcases hs with h0 | ⟨c, e, hc, he⟩
    · subst h0; exact Or.inl rfl
    · subst hc
      unfold trySecondary
      dsimp only
      rw [he]
      dsimp only
      by_cases h429 : containsSub e (lc "429") = true
      · rw [if_pos h429]; exact Or.inr rfl
      · rw [if_neg h429]; exact Or.inl rfl
  rcases hp with h0 | ⟨c, e, hc, he⟩
  · subst h0; exact hsec
  · subst hc
    unfold getLLMResponse
    dsimp only
    rw [he]
    exact hsec

end ResearchAgent

namespace VerificationAgent

theorem vaAllFailError (primary secondary : Slot) (prompt : Str)
    (h : allProvidersFail primary secondary prompt) :
    getLLMResponse primary secondary prompt = Except.error exhaustMsg ∨
    getLLMResponse primary secondary prompt = Except.error rateLimitMsg := by
  obtain ⟨hp, hs⟩ := h
  have hsec : trySecondary secondary prompt = Except.error exhaustMsg ∨
      trySecondary secondary prompt = Except.error rateLimitMsg := by
    rcases hs with h0 | ⟨c, e, hc, he⟩
    · subst h0; exact Or.inl rfl
    · subst hc
      unfold trySecondary
      dsimp only
      rw [he]
      dsimp only
      by_cases h429 : containsSub e (lc "429") = true
      · rw [if_pos h429]; exact Or.inr rfl
      · rw [if_neg h429]; exact Or.inl rfl
  rcases hp with h0 | ⟨c, e, hc, he⟩
  · subst h0; exact hsec
  · subst hc
    unfold getLLMResponse
    dsimp only
    rw [he]
    exact hsec

end VerificationAgent

/- Claim theorems. -/

/-- C1 (amended): whenever the provider chain yields a response,
    `VerificationAgent.check` returns a formatted report whose
    underlying dictionary has all five fields populated (parsed values
    or documented defaults); but when every provider is absent or
    fails, `check` re-raises a model error and returns no report. -/
theorem c1_check_report_always_complete (answer : Str) (documents : List Str)
    (primary secondary : Slot) :
    (∀ r,
      VerificationAgent.getLLMResponse primary secondary
          (VerificationAgent.generatePrompt answer (joinSep (lc "\n\n") documents))
        = Except.ok r →
      VerificationAgent.check answer documents primary secondary =
        Except.ok (VerificationAgent.formatVerificationReport (VerificationAgent.checkReport r),
          joinSep (lc "\n\n") documents) ∧
      VerificationAgent.hasAllFields (VerificationAgent.checkReport r)) ∧
    (∀ e,
      VerificationAgent.getLLMResponse primary secondary
          (VerificationAgent.generatePrompt answer (joinSep (lc "\n\n") documents))
        = Except.error e →
      VerificationAgent.check answer documents primary secondary =
        Except.error VerificationAgent.checkFailMsg) := by
  constructor
  · intro r hr
    refine ⟨?_, VerificationAgent.hasAllFields_checkReport r⟩
    unfold VerificationAgent.check
    dsimp only
    rw [hr]
  · intro e he
    unfold VerificationAgent.check
    dsimp only
    rw [he]

/-- C1 witness: a primary provider answering `Supported: YES` yields a
    report, and that report has all five fields. -/
theorem c1_witness :
    VerificationAgent.check (lc "A") [lc "ctx"]
        (some (fun _ => Except.ok (lc "Supported: YES"))) none =
      Except.ok (VerificationAgent.formatVerificationReport
        (VerificationAgent.checkReport (lc "Supported: YES")), lc "ctx") ∧
    VerificationAgent.hasAllFields (VerificationAgent.checkReport (lc "Supported: YES")) :=
  (c1_check_report_always_complete (lc "A") [lc "ctx"]
      (some (fun _ => Except.ok (lc "Supported: YES"))) none).1
    (lc "Supported: YES") rfl

/-- C1 counterexample to the claim as stated: with every provider
    absent, `check` terminates by raising the model error and produces
    no report at all. -/
theorem c1_counterexample :
    VerificationAgent.check (lc "A") [lc "ctx"] none none =
      Except.error VerificationAgent.checkFailMsg ∧
    ¬ ∃ p, VerificationAgent.check (lc "A") [lc "ctx"] none none = Except.ok p := by
  have h : VerificationAgent.check (lc "A") [lc "ctx"] none none =
      Except.error VerificationAgent.checkFailMsg := rfl
  refine ⟨h, ?_⟩
  rintro ⟨p, hp⟩
  rw [h] at hp
  exact Except.noConfusion hp

/-- C2 (code-bug evidence): for the response line
    `Unsupported Claims: [a, "b", c]` the parser does compute the
    quote- and whitespace-stripped items `a`, `b`, `c`, but stores them
    under the `capitalize`d key `Unsupported claims`, while the
    backfill pass and the report formatter use the key
    `Unsupported Claims`, which therefore holds the default empty list;
    the formatted report renders the field as `None`. -/
theorem c2_unsupported_claims_key_mismatch :
    VerificationAgent.lookupD
        (VerificationAgent.parseVerificationResponse (lc "Unsupported Claims: [a, \"b\", c]"))
        (lc "Unsupported claims")
      = some (VerificationAgent.FieldVal.l [lc "a", lc "b", lc "c"]) ∧
    VerificationAgent.lookupD
        (VerificationAgent.parseVerificationResponse (lc "Unsupported Claims: [a, \"b\", c]"))
        (lc "Unsupported Claims")
      = some (VerificationAgent.FieldVal.l []) ∧
    containsSub
        (VerificationAgent.formatVerificationReport
          (VerificationAgent.parseVerificationResponse (lc "Unsupported Claims: [a, \"b\", c]")))
        (lc "**Unsupported Claims:** None") = true :=
  ⟨by decide, by decide, by decide⟩

/-- C3: `RelevanceChecker.check` always returns exactly one of the
    three label strings — it is a total function of its inputs (an
    exhausted provider chain is caught and classified as `NO_MATCH`,
    never re-raised) — and any raw output containing none of
    `CAN_ANSWER`, `PART`, `NO_MATCH` classifies as `NO_MATCH`. -/
theorem c3_check_returns_one_of_three :
    (∀ question topDocs k primary secondary,
      RelevanceChecker.check question topDocs k primary secondary = lc "CAN_ANSWER" ∨
      RelevanceChecker.check question topDocs k primary secondary = lc "PARTIAL" ∨
      RelevanceChecker.check question topDocs k primary secondary = lc "NO_MATCH") ∧
    (∀ raw, containsSub (pyUpper (pyStrip raw)) (lc "CAN_ANSWER") = false →
      containsSub (pyUpper (pyStrip raw)) (lc "PART") = false →
      containsSub (pyUpper (pyStrip raw)) (lc "NO_MATCH") = false →
      RelevanceChecker.classify raw = lc "NO_MATCH") := by
  constructor
  · intro question topDocs k primary secondary
    unfold RelevanceChecker.check
    dsimp only
    split
    · exact Or.inr (Or.inr rfl)
    · split
      · exact Or.inr (Or.inr rfl)
      · exact RelevanceChecker.classify_cases _
  · intro raw h1 h2 h3
    simp [RelevanceChecker.classify, h1, h2, h3]

/-- C3 witness: a completely unexpected output resolves to `NO_MATCH`. -/
theorem c3_witness :
    RelevanceChecker.classify (lc "gibberish output 123") = lc "NO_MATCH" :=
  c3_check_returns_one_of_three.2 (lc "gibberish output 123")
    (by decide) (by decide) (by decide)

/-- C6: any raw classifier output whose stripped, upper-cased form
    contains `CAN_ANSWER` classifies as `CAN_ANSWER`, regardless of the
    surrounding text — in particular even when `PART` also occurs —
    because the `CAN_ANSWER` containment test is made first. -/
theorem c6_can_answer_priority (raw : Str)
    (h : containsSub (pyUpper (pyStrip raw)) (lc "CAN_ANSWER") = true) :
    RelevanceChecker.classify raw = lc "CAN_ANSWER" := by
  simp [RelevanceChecker.classify, h]

/-- C6 witness: a hedged response containing both `PARTIAL` and
    `CAN_ANSWER` classifies as the stronger label. -/
theorem c6_witness :
    containsSub (pyUpper (pyStrip (lc "It is PARTIAL but CAN_ANSWER"))) (lc "PART") = true ∧
    RelevanceChecker.classify (lc "It is PARTIAL but CAN_ANSWER") = lc "CAN_ANSWER" :=
  ⟨by decide, c6_can_answer_priority (lc "It is PARTIAL but CAN_ANSWER") (by decide)⟩

/-- C7: for every question, `k` and provider configuration, when the
    retriever returns no documents, `RelevanceChecker.check` classifies
    as `NO_MATCH` and invokes no provider. -/
theorem c7_empty_retrieval_short_circuits (question : Str) (k : Nat)
    (primary secondary : Slot) :
    RelevanceChecker.check question [] k primary secondary = lc "NO_MATCH" ∧
    RelevanceChecker.checkTrace question [] k primary secondary = [] :=
  ⟨rfl, rfl⟩

/-- C4 counterexample to the claim as stated: in the
    relevance-classification stage, a final failure carrying the
    rate-limit indicator `429` still raises the generic exhaustion
    error, not a wait-and-retry message. -/
theorem c4_counterexample :
    RelevanceChecker.getLLMResponse none
        (some (fun _ => Except.error (lc "429 Too Many Requests"))) (lc "p")
      = Except.error RelevanceChecker.exhaustMsg ∧
    containsSub (lc "429 Too Many Requests") (lc "429") = true ∧
    RelevanceChecker.exhaustMsg ≠ ResearchAgent.rateLimitMsg :=
  ⟨rfl, by decide, by decide⟩

/-- C4 (amended): in the drafting and verification stages, when the
    primary is absent or fails and the secondary fails with an error
    containing `429`, the chain raises the explicit user-facing
    wait-and-retry message, distinguished from the generic exhaustion
    error; the relevance-classification stage instead raises only its
    generic exhaustion error, whatever the failure. -/
theorem c4_rate_limit_propagation :
    (∀ (c2 : Client) (prompt e : Str),
      c2 prompt = Except.error e → containsSub e (lc "429") = true →
      ∀ primary,
        (primary = none ∨ ∃ c e0, primary = some c ∧ c prompt = Except.error e0) →
        ResearchAgent.getLLMResponse primary (some c2) prompt
          = Except.error ResearchAgent.rateLimitMsg ∧
        VerificationAgent.getLLMResponse primary (some c2) prompt
          = Except.error VerificationAgent.rateLimitMsg) ∧
    ResearchAgent.rateLimitMsg ≠ ResearchAgent.exhaustMsg ∧
    (∀ primary secondary prompt m,
      RelevanceChecker.getLLMResponse primary secondary prompt = Except.error m →
      m = RelevanceChecker.exhaustMsg) := by
  refine ⟨?_, by decide, ?_⟩
  · intro c2 prompt e he h429 primary hp
    have hsec : ResearchAgent.trySecondary (some c2) prompt
        = Except.error ResearchAgent.rateLimitMsg := by
      unfold ResearchAgent.trySecondary
      dsimp only
      rw [he]
      dsimp only
      rw [if_pos h429]
    have hsec2 : VerificationAgent.trySecondary (some c2) prompt
        = Except.error VerificationAgent.rateLimitMsg := by
      unfold VerificationAgent.trySecondary
      dsimp only
      rw [he]
      dsimp only
      rw [if_pos h429]
    rcases hp with hnone | ⟨c, e0, hc, he0⟩
    · subst hnone
      exact ⟨hsec, hsec2⟩
    · subst hc
      constructor
      · unfold ResearchAgent.getLLMResponse
        dsimp only
        rw [he0]
        exact hsec
      · unfold VerificationAgent.getLLMResponse
        dsimp only
        rw [he0]
        exact hsec2
  · intro primary secondary prompt m h
    cases primary with
    | none => exact RelevanceChecker.trySecondary_error_msg _ _ _ h
    | some c =>
      unfold RelevanceChecker.getLLMResponse at h
      dsimp only at h
      cases hc : c prompt with
      | ok r => rw [hc] at h; simp at h
      | error e =>
        rw [hc] at h
        exact RelevanceChecker.trySecondary_error_msg _ _ _ h

/-- C4 witness: drafting and verification raise the wait-and-retry
    message when the only provider fails with a `429`. -/
theorem c4_witness :
    ResearchAgent.getLLMResponse none
        (some (fun _ => Except.error (lc "HTTP 429"))) (lc "p")
      = Except.error ResearchAgent.rateLimitMsg ∧
    VerificationAgent.getLLMResponse none
        (some (fun _ => Except.error (lc "HTTP 429"))) (lc "p")
      = Except.error VerificationAgent.rateLimitMsg :=
  c4_rate_limit_propagation.1 (fun _ => Except.error (lc "HTTP 429")) (lc "p")
    (lc "HTTP 429") rfl (by decide) none (Or.inl rfl)

/-- C5 counterexample to the claim as stated: a whitespace-only raw
    answer is truthy, so it is stripped to the empty string and
    returned — `generate` yields an empty draft rather than the
    sentinel. -/
theorem c5_counterexample :
    ResearchAgent.generate (lc "q") [] (some (fun _ => Except.ok (lc " "))) none
      = Except.ok ([], []) ∧
    ([] : Str) ≠ ResearchAgent.cannotAnswerMsg :=
  ⟨rfl, by decide⟩

/-- C5 (amended): `generate` returns a whitespace-trimmed draft; an
    empty (falsy) raw result yields the fixed sentinel, while a
    whitespace-only raw result trims to an empty draft; a failed
    provider chain is re-raised as a model error rather than producing
    the sentinel. -/
theorem c5_generate_sanitizes (question : Str) (documents : List Str)
    (primary secondary : Slot) :
    (∀ e, ResearchAgent.getLLMResponse primary secondary
        (ResearchAgent.generatePrompt question (joinSep (lc "\n\n") documents))
        = Except.error e →
      ResearchAgent.generate question documents primary secondary
        = Except.error ResearchAgent.modelErrorMsg) ∧
    (∀ r, ResearchAgent.getLLMResponse primary secondary
        (ResearchAgent.generatePrompt question (joinSep (lc "\n\n") documents))
        = Except.ok r →
      ResearchAgent.generate question documents primary secondary
        = Except.ok ((if r = [] then ResearchAgent.cannotAnswerMsg else pyStrip r),
            joinSep (lc "\n\n") documents)) ∧
    (∀ d ctx, ResearchAgent.generate question documents primary secondary
        = Except.ok (d, ctx) → pyStrip d = d) := by
  refine ⟨?_, ?_, ?_⟩
  · intro e he
    unfold ResearchAgent.generate
    dsimp only
    rw [he]
  · intro r hr
    unfold ResearchAgent.generate
    dsimp only
    rw [hr]
    by_cases h0 : r = []
    · simp [h0, ResearchAgent.sanitizeResponse]
    · simp [h0, ResearchAgent.sanitizeResponse]
  · intro d ctx hok
    unfold ResearchAgent.generate at hok
    dsimp only at hok
    cases hg : ResearchAgent.getLLMResponse primary secondary
        (ResearchAgent.generatePrompt question (joinSep (lc "\n\n") documents)) with
    | error e => rw [hg] at hok; simp at hok
    | ok r =>
      rw [hg] at hok
      simp only [Except.ok.injEq, Prod.mk.injEq] at hok
      obtain ⟨hd, -⟩ := hok
      rw [← hd]
      by_cases h0 : r = []
      · simp only [h0, ne_eq, not_true_eq_false, if_false]
        decide
      · simp only [ne_eq, h0, not_false_eq_true, if_true,
          ResearchAgent.sanitizeResponse]
        exact pyStrip_idem r

/-- C5 witness: a raw answer padded with whitespace is returned
    trimmed. -/
theorem c5_witness :
    ResearchAgent.generate (lc "q") [lc "doc"]
        (some (fun _ => Except.ok (lc " hi "))) none
      = Except.ok (lc "hi", lc "doc") :=
  (c5_generate_sanitizes (lc "q") [lc "doc"]
      (some (fun _ => Except.ok (lc " hi "))) none).2.1 (lc " hi ") rfl

/-- C8: each stage's fallback invokes the providers in the fixed
    priority order primary-then-secondary, each at most once per
    request (the invocation trace is one of `[]`, `[0]`, `[1]`,
    `[0, 1]` with 0 = primary, 1 = secondary), a primary success
    returns immediately with no secondary call, and a failing primary
    with a succeeding secondary yields exactly the secondary's output —
    in both the relevance-classification and drafting chains (the
    verification chain repeats the drafting chain verbatim). -/
theorem c8_fallback_priority_first_success :
    (∀ primary secondary prompt,
      RelevanceChecker.callTrace primary secondary prompt = [] ∨
      RelevanceChecker.callTrace primary secondary prompt = [0] ∨
      RelevanceChecker.callTrace primary secondary prompt = [1] ∨
      RelevanceChecker.callTrace primary secondary prompt = [0, 1]) ∧
    (∀ (c : Client) secondary prompt r, c prompt = Except.ok r →
      RelevanceChecker.getLLMResponse (some c) secondary prompt = Except.ok r ∧
      RelevanceChecker.callTrace (some c) secondary prompt = [0]) ∧
    (∀ (c c2 : Client) prompt e r,
      c prompt = Except.error e → c2 prompt = Except.ok r →
      RelevanceChecker.getLLMResponse (some c) (some c2) prompt = Except.ok r ∧
      RelevanceChecker.callTrace (some c) (some c2) prompt = [0, 1]) ∧
    (∀ primary secondary prompt,
      ResearchAgent.callTrace primary secondary prompt = [] ∨
      ResearchAgent.callTrace primary secondary prompt = [0] ∨
      ResearchAgent.callTrace primary secondary prompt = [1] ∨
      ResearchAgent.callTrace primary secondary prompt = [0, 1]) ∧
    (∀ (c : Client) secondary prompt r, c prompt = Except.ok r →
      ResearchAgent.getLLMResponse (some c) secondary prompt = Except.ok r ∧
      ResearchAgent.callTrace (some c) secondary prompt = [0]) ∧
    (∀ (c c2 : Client) prompt e r,
      c prompt = Except.error e → c2 prompt = Except.ok r →
      ResearchAgent.getLLMResponse (some c) (some c2) prompt = Except.ok r ∧
      ResearchAgent.callTrace (some c) (some c2) prompt = [0, 1]) := by
  refine ⟨?_, ?_, ?_, ?_, ?_, ?_⟩
  · intro primary secondary prompt
    cases primary with
    | none =>
      cases secondary with
      | none => exact Or.inl rfl
      | some c2 => exact Or.inr (Or.inr (Or.inl rfl))
    | some c =>
      cases hc : c prompt with
      | ok r => exact Or.inr (Or.inl (by simp [RelevanceChecker.callTrace, hc]))
      | error e =>
        cases secondary with
        | none => exact Or.inr (Or.inl (by simp [RelevanceChecker.callTrace, hc]))
        | some c2 =>
          exact Or.inr (Or.inr (Or.inr (by simp [RelevanceChecker.callTrace, hc])))
  · intro c secondary prompt r hc
    constructor
    · unfold RelevanceChecker.getLLMResponse
      dsimp only
      rw [hc]
    · unfold RelevanceChecker.callTrace
      dsimp only
      rw [hc]
  · intro c c2 prompt e r hc hc2
    constructor
    · unfold RelevanceChecker.getLLMResponse
      dsimp only
      rw [hc]
      unfold RelevanceChecker.trySecondary
      dsimp only
      rw [hc2]
    · unfold RelevanceChecker.callTrace
      dsimp only
      rw [hc]
  · intro primary secondary prompt
    cases primary with
    | none =>
      cases secondary with
      | none => exact Or.inl rfl
      | some c2 => exact Or.inr (Or.inr (Or.inl rfl))
    | some c =>
      cases hc : c prompt with
      | ok r => exact Or.inr (Or.inl (by simp [ResearchAgent.callTrace, hc]))
      | error e =>
        cases secondary with
        | none => exact Or.inr (Or.inl (by simp [ResearchAgent.callTrace, hc]))
        | some c2 =>
          exact Or.inr (Or.inr (Or.inr (by simp [ResearchAgent.callTrace, hc])))
  · intro c secondary prompt r hc
    constructor
    · unfold ResearchAgent.getLLMResponse
      dsimp only
      rw [hc]
    · unfold ResearchAgent.callTrace
      dsimp only
      rw [hc]
  · intro c c2 prompt e r hc hc2
    constructor
    · unfold ResearchAgent.getLLMResponse
      dsimp only
      rw [hc]
      unfold ResearchAgent.trySecondary
      dsimp only
      rw [hc2]
    · unfold ResearchAgent.callTrace
      dsimp only
      rw [hc]

/-- C8 witness: a primary that fails and a secondary that succeeds
    yield the secondary's output after exactly the trace
    primary-then-secondary. -/
theorem c8_witness :
    RelevanceChecker.getLLMResponse (some (fun _ => Except.error (lc "boom")))
        (some (fun _ => Except.ok (lc "PARTIAL"))) (lc "p") = Except.ok (lc "PARTIAL") ∧
    RelevanceChecker.callTrace (some (fun _ => Except.error (lc "boom")))
        (some (fun _ => Except.ok (lc "PARTIAL"))) (lc "p") = [0, 1] :=
  c8_fallback_priority_first_success.2.2.1 (fun _ => Except.error (lc "boom"))
    (fun _ => Except.ok (lc "PARTIAL")) (lc "p") (lc "boom") (lc "PARTIAL") rfl rfl

/-- C9 counterexample to the claim as stated: in the verification (and
    drafting) chain, when every provider fails and the final failure
    carries the rate-limit indicator, the raised error is the
    wait-and-retry message, which is not the exhaustion error naming
    that no provider produced output. -/
theorem c9_counterexample :
    allProvidersFail none
        (some (fun _ => Except.error (lc "Error 429: quota"))) (lc "p") ∧
    VerificationAgent.getLLMResponse none
        (some (fun _ => Except.error (lc "Error 429: quota"))) (lc "p")
      = Except.error VerificationAgent.rateLimitMsg ∧
    VerificationAgent.rateLimitMsg ≠ VerificationAgent.exhaustMsg :=
  ⟨⟨Or.inl rfl, Or.inr ⟨_, _, rfl, rfl⟩⟩, rfl, by decide⟩

/-- C9 (amended): whenever every provider is absent or fails, each
    stage's chain raises an error and never returns a result — in
    particular never an empty string passed off as a success: the
    relevance-classification chain raises exactly its exhaustion
    error, and the drafting and verification chains raise their
    exhaustion error or, when the final secondary failure carries
    `429`, the distinguished rate-limit message. -/
theorem c9_exhaustion_never_empty_success (primary secondary : Slot) (prompt : Str)
    (h : allProvidersFail primary secondary prompt) :
    RelevanceChecker.getLLMResponse primary secondary prompt
      = Except.error RelevanceChecker.exhaustMsg ∧
    (ResearchAgent.getLLMResponse primary secondary prompt
        = Except.error ResearchAgent.exhaustMsg ∨
     ResearchAgent.getLLMResponse primary secondary prompt
        = Except.error ResearchAgent.rateLimitMsg) ∧
    (VerificationAgent.getLLMResponse primary secondary prompt
        = Except.error VerificationAgent.exhaustMsg ∨
     VerificationAgent.getLLMResponse primary secondary prompt
        = Except.error VerificationAgent.rateLimitMsg) ∧
    (∀ r, RelevanceChecker.getLLMResponse primary secondary prompt ≠ Except.ok r) ∧
    (∀ r, ResearchAgent.getLLMResponse primary secondary prompt ≠ Except.ok r) ∧
    (∀ r, VerificationAgent.getLLMResponse primary secondary prompt ≠ Except.ok r) := by
  have h1 := RelevanceChecker.rcAllFailError primary secondary prompt h
  have h2 := ResearchAgent.raAllFailError primary secondary prompt h
  have h3 := VerificationAgent.vaAllFailError primary secondary prompt h
  refine ⟨h1, h2, h3, ?_, ?_, ?_⟩
  · intro r hr
    rw [h1] at hr
    exact Except.noConfusion hr
  · intro r hr
    rcases h2 with h2 | h2 <;> rw [h2] at hr <;> exact Except.noConfusion hr
  · intro r hr
    rcases h3 with h3 | h3 <;> rw [h3] at hr <;> exact Except.noConfusion hr

/-- C9 witness: with no provider initialized, every stage's chain
    raises its exhaustion error. -/
theorem c9_witness :
    RelevanceChecker.getLLMResponse none none (lc "p")
      = Except.error RelevanceChecker.exhaustMsg ∧
    (ResearchAgent.getLLMResponse none none (lc "p")
        = Except.error ResearchAgent.exhaustMsg ∨
     ResearchAgent.getLLMResponse none none (lc "p")
        = Except.error ResearchAgent.rateLimitMsg) :=
  ⟨(c9_exhaustion_never_empty_success none none (lc "p") ⟨Or.inl rfl, Or.inl rfl⟩).1,
   (c9_exhaustion_never_empty_success none none (lc "p") ⟨Or.inl rfl, Or.inl rfl⟩).2.1⟩

/-- C10: a response line whose normalized key is `Supported` or
    `Relevant` is stored with its value upper-cased; the details key
    stores its stripped value verbatim and a list key stores its split
    items with no case change; concretely, `Supported: yes` parses to
    `YES` and the formatted report renders `**Supported:** YES`. -/
theorem c10_scalar_fields_uppercased :
    (∀ d line k0 v0, splitFirst ':' line = some (k0, v0) →
      (pyCapitalize (pyStrip k0) = lc "Supported" ∨
       pyCapitalize (pyStrip k0) = lc "Relevant") →
      VerificationAgent.lookupD (VerificationAgent.parseLine d line)
          (pyCapitalize (pyStrip k0))
        = some (VerificationAgent.FieldVal.s (pyUpper (pyStrip v0)))) ∧
    (∀ d line k0 v0, splitFirst ':' line = some (k0, v0) →
      pyCapitalize (pyStrip k0) = lc "Additional details" →
      VerificationAgent.lookupD (VerificationAgent.parseLine d line)
          (lc "Additional details")
        = some (VerificationAgent.FieldVal.s (pyStrip v0))) ∧
    (∀ d line k0 v0, splitFirst ':' line = some (k0, v0) →
      pyCapitalize (pyStrip k0) = lc "Contradictions" →
      VerificationAgent.lookupD (VerificationAgent.parseLine d line)
          (lc "Contradictions")
        = some (VerificationAgent.FieldVal.l
            (VerificationAgent.parseListValue (pyStrip v0)))) ∧
    VerificationAgent.lookupD
        (VerificationAgent.parseVerificationResponse (lc "Supported: yes"))
        (lc "Supported") = some (VerificationAgent.FieldVal.s (lc "YES")) ∧
    containsSub
      (VerificationAgent.formatVerificationReport
        (VerificationAgent.parseVerificationResponse (lc "Supported: yes")))
      (lc "**Supported:** YES") = true := by
  refine ⟨?_, ?_, ?_, by decide, by decide⟩
  · intro d line k0 v0 hsplit hkey
    unfold VerificationAgent.parseLine
    rw [hsplit]
    dsimp only
    rcases hkey with hk | hk <;>
      rw [hk, if_pos (by decide), if_neg (by decide), if_neg (by decide)] <;>
      exact VerificationAgent.lookupD_insertD_self _ _ _
  · intro d line k0 v0 hsplit hk
    unfold VerificationAgent.parseLine
    rw [hsplit]
    dsimp only
    rw [hk, if_pos (by decide), if_neg (by decide), if_pos rfl]
    exact VerificationAgent.lookupD_insertD_self _ _ _
  · intro d line k0 v0 hsplit hk
    unfold VerificationAgent.parseLine
    rw [hsplit]
    dsimp only
    rw [hk, if_pos (by decide), if_pos (by decide)]
    exact VerificationAgent.lookupD_insertD_self _ _ _

/-- C10 witness: a line with key `Relevant` and lower-case value parses
    to the upper-cased value. -/
theorem c10_witness :
    VerificationAgent.lookupD
        (VerificationAgent.parseLine [] (lc "Relevant: yes"))
        (lc "Relevant") = some (VerificationAgent.FieldVal.s (lc "YES")) :=
  c10_scalar_fields_uppercased.1 [] (lc "Relevant: yes") (lc "Relevant") (lc " yes")
    rfl (Or.inr rfl)
